import Mathlib

/-!
# GovTechSG/mcf-devops-checkin: the `pinger` service

A shallow embedding of `src/cmd/pinger/main.go` and theorems about it.

* Go strings are Lean `String`s, `uint16` values are `Nat`s.
* A Go `error` is `Option String`: `none` is `nil`, `some t` is a non-nil
  error whose `Error()` method returns `t`.
* The package `fmt` and `log` calls the program makes are embedded after the
  documented behaviour of the Go standard library; the wall-clock part of a
  log line (date, time, file) is an argument `hdr` of every logging call.
* The process is a state `Proc` and a step function `step` over the events
  the program reacts to.
-/

namespace Pinger

/-! ## Constants of `main.go` -/

def DefaultInterface : String := "0.0.0.0"
def DefaultPort : Nat := 8000
def DefaultTargetHost : String := "localhost"
def DefaultTargetProto : String := "http"
def ExitCodeSuccess : Nat := 0
def ExitCodeInitFailed : Nat := 1
def ExitCodeMainFailed : Nat := 2

def StatusOK : Nat := 200
def StatusTeapot : Nat := 418
def StatusNotFound : Nat := 404

/-! ## `fmt`: the formatted printing the program uses -/

/-- An operand of a formatted print: a string (also a value that `fmt` prints
through its `String()` or `Error()` method) or an unsigned integer. -/
inductive Arg where
  | str (s : String)
  | uint (n : Nat)
  deriving DecidableEq, Repr

/-- The Go type name `fmt` prints in its diagnostics. -/
def Arg.typeName : Arg → String
  | .str _ => "string"
  | .uint _ => "uint16"

/-- The default (`%v`) rendering of an operand: a string as it is, an
unsigned integer in decimal. -/
def Arg.default : Arg → String
  | .str s => s
  | .uint n => Nat.repr n

/-- One verb applied to one operand. `%v` is the default format, `%s` is for
strings, `%d` for integers; a verb that does not fit the operand prints the
`%!verb(type=value)` diagnostic. -/
def Arg.format (c : Char) : Arg → List Char
  | .str s =>
    if c = 'v' ∨ c = 's' then s.data
    else '%' :: '!' :: c :: '(' :: ("string=" ++ s ++ ")").data
  | .uint n =>
    if c = 'v' ∨ c = 'd' then (Nat.repr n).data
    else '%' :: '!' :: c :: '(' :: ("uint16=" ++ Nat.repr n ++ ")").data

/-- The `type=value` list of the `%!(EXTRA ...)` diagnostic. -/
def extraArgs : List Arg → List Char
  | [] => []
  | [a] => (a.typeName ++ "=" ++ a.default).data
  | a :: rest => (a.typeName ++ "=" ++ a.default ++ ", ").data ++ extraArgs rest

/-- The body of `fmt.Sprintf` over the characters of the format string. -/
def sprintfChars : List Char → List Arg → List Char
  | [], [] => []
  | [], a :: rest => "%!(EXTRA ".data ++ extraArgs (a :: rest) ++ [')']
  | [c], args =>
    if c = '%' then "%!(NOVERB)".data ++ sprintfChars [] args
    else c :: sprintfChars [] args
  | c :: d :: fmt, args =>
    if c = '%' then
      if d = '%' then '%' :: sprintfChars fmt args
      else
        match args with
        | [] => '%' :: '!' :: d :: "(MISSING)".data ++ sprintfChars fmt []
        | a :: rest => a.format d ++ sprintfChars fmt rest
    else c :: sprintfChars (d :: fmt) args

/-- The function `fmt.Sprintf`. -/
def Sprintf (format : String) (args : List Arg) : String :=
  ⟨sprintfChars format.data args⟩

/-- The function `fmt.Sprintln` of one operand: its default rendering and a
newline. -/
def Sprintln (a : Arg) : String := a.default ++ "\n"

/-- The function `fmt.Sprint` of one operand. -/
def Sprint (a : Arg) : String := a.default

/-! ## `log`: loggers -/

def Ldate : Nat := 1
def Ltime : Nat := 2
def Lmsgprefix : Nat := 64
def LstdFlags : Nat := Ldate ||| Ltime

/-- A `*log.Logger`: the text put in front of every line, the flags, and the
writer it prints to, kept as the list of the writes it has received (a
`bytes.Buffer` in the test, standard output or standard error in `main`). -/
structure Logger where
  pre : String
  flag : Nat
  out : List String
  deriving DecidableEq, Repr

/-- The function `log.New`. -/
def Logger.New (out : List String) (pre : String) (flag : Nat) : Logger :=
  ⟨pre, flag, out⟩

/-- The content of the writer: all writes, in order. -/
def Logger.text (l : Logger) : String := String.join l.out

/-- The line `Logger.Output` assembles for the message `s`: the logger's
leading text and the header `hdr` (the leading text comes after the header
when `Lmsgprefix` is set), then `s`, then a newline unless `s` ends in one. -/
def Logger.line (l : Logger) (hdr s : String) : String :=
  (if l.flag &&& Lmsgprefix = 0 then l.pre ++ hdr else hdr ++ l.pre) ++ s ++
    (if s.data.getLast? = some '\n' then "" else "\n")

/-- The method `Logger.Output`: one write of the assembled line. -/
def Logger.Output (l : Logger) (hdr s : String) : Logger :=
  { l with out := l.out ++ [l.line hdr s] }

/-- The method `Logger.Println` of one operand. -/
def Logger.Println (l : Logger) (hdr : String) (a : Arg) : Logger :=
  l.Output hdr (Sprintln a)

/-- The method `Logger.Printf`. -/
def Logger.Printf (l : Logger) (hdr format : String) (args : List Arg) : Logger :=
  l.Output hdr (Sprintf format args)

/-! ## `handleError` and `Config` -/

/-- The function `handleError` of `main.go`: a non-nil error is printed with
`log.Println`, a nil error is skipped. -/
def handleError (err : Option String) (hdr : String) (log : Logger) : Logger :=
  match err with
  | some e => log.Println hdr (.str e)
  | none => log

/-- The type `Config` of `main.go`. `PingTimeout` is a duration in
nanoseconds; `Port` and `TargetPort` are `uint16`. -/
structure Config where
  Interface : String
  PingTimeout : Nat
  Port : Nat
  TargetHost : String
  TargetPath : String
  TargetPort : Nat
  TargetProto : String
  deriving DecidableEq, Repr

/-- The method `Config.getTargetURL`. -/
def Config.getTargetURL (c : Config) : String :=
  Sprintf "%s://%s:%v/%s"
    [.str c.TargetProto, .str c.TargetHost, .uint c.TargetPort, .str c.TargetPath]

/-! ## The HTTP routes: `createMux` -/

/-- What a handler has sent through its `http.ResponseWriter`: the status
line, once written, and the body bytes. -/
structure ResponseWriter where
  status : Option Nat
  body : String
  deriving DecidableEq, Repr

/-- A fresh `http.ResponseWriter`: nothing written yet. -/
def ResponseWriter.new : ResponseWriter := ⟨none, ""⟩

/-- The method `WriteHeader`: sets the status once; a later call is ignored. -/
def ResponseWriter.WriteHeader (w : ResponseWriter) (code : Nat) : ResponseWriter :=
  match w.status with
  | none => { w with status := some code }
  | some _ => w

/-- The method `Write`: writes the status 200 first when none has been
written, then appends the bytes. -/
def ResponseWriter.Write (w : ResponseWriter) (b : String) : ResponseWriter :=
  let w1 := w.WriteHeader StatusOK
  { w1 with body := w1.body ++ b }

/-- The response a client receives: status code and body. -/
structure Response where
  code : Nat
  body : String
  deriving DecidableEq, Repr

/-- The response on the wire once the handler has returned. -/
def ResponseWriter.result (w : ResponseWriter) : Response :=
  ⟨w.status.getD StatusOK, w.body⟩

/-- A Go `map[string]bool`, as its list of entries. -/
abbrev BoolMap := List (String × Bool)

/-- Indexing a `map[string]bool`: the value stored under the key, `false`
(the zero value) when the key is absent. -/
def BoolMap.get (m : BoolMap) (key : String) : Bool :=
  match m.lookup key with
  | some b => b
  | none => false

/-- The package variable `readiness` as `main.go` declares it. -/
def readinessInit : BoolMap := [("target_up", false)]

/-- The part of an `*http.Request` the program reads. -/
structure Request where
  Host : String
  RemoteAddr : String
  Proto : String
  Method : String
  Path : String
  deriving DecidableEq, Repr

/-- A handler function; the package variable `readiness` it may read is its
first argument. -/
abbrev HandlerFunc := BoolMap → ResponseWriter → Request → ResponseWriter

/-- The handler `createMux` registers for "/". -/
def rootHandler : HandlerFunc := fun _ w _ =>
  (w.WriteHeader StatusOK).Write "hello world"

/-- The handler `createMux` registers for "/healthz". -/
def healthzHandler : HandlerFunc := fun _ w _ =>
  (w.WriteHeader StatusOK).Write "alive"

/-- The handler `createMux` registers for "/readyz". -/
def readyzHandler : HandlerFunc := fun readiness w _ =>
  if readiness.get "target_up" then
    (w.WriteHeader StatusOK).Write "ready"
  else
    (w.WriteHeader StatusTeapot).Write "not ready"

/-- An `*http.ServeMux`: the registered patterns with their handlers. -/
abbrev ServeMux := List (String × HandlerFunc)

/-- The function `createMux`: three `HandleFunc` registrations. -/
def createMux : ServeMux :=
  [("/", rootHandler), ("/healthz", healthzHandler), ("/readyz", readyzHandler)]

/-- The handler registered under exactly this pattern. -/
def ServeMux.registered (mux : ServeMux) (pattern : String) : Option HandlerFunc :=
  mux.lookup pattern

/-- The longest registered pattern that ends in a slash and is a leading
part of the path. -/
def ServeMux.subtree (mux : ServeMux) (path : String) : Option (String × HandlerFunc) :=
  mux.foldl (fun best e =>
    if e.1.data.getLast? = some '/' ∧ e.1.data.isPrefixOf path.data = true then
      match best with
      | none => some e
      | some b => if b.1.length < e.1.length then some e else some b
    else best) none

/-- The handler `http.NotFound`. -/
def notFoundHandler : HandlerFunc := fun _ w _ =>
  (w.WriteHeader StatusNotFound).Write "404 page not found\n"

/-- Routing of a (clean) request path by `ServeMux`: a pattern equal to the
path wins, then the longest pattern ending in a slash that starts the path,
then `http.NotFound`. -/
def ServeMux.handler (mux : ServeMux) (path : String) : HandlerFunc :=
  match mux.registered path with
  | some h => h
  | none =>
    match mux.subtree path with
    | some e => e.2
    | none => notFoundHandler

/-- The method `ServeMux.ServeHTTP`: run the matching handler on a fresh
writer. -/
def ServeMux.ServeHTTP (mux : ServeMux) (readiness : BoolMap) (r : Request) : Response :=
  (mux.handler r.Path readiness ResponseWriter.new r).result

/-- The line `requestLoggerMiddleware` prints after the wrapped handler has
run. -/
def requestLogLine (r : Request) : String :=
  Sprintf "< %s <- %s | %s %s %s \n"
    [.str r.Host, .str r.RemoteAddr, .str r.Proto.toUpper, .str r.Method, .str r.Path]

/-! ## The process: `main` -/

/-- The signals `main` subscribes to with `signal.Notify`. -/
inductive Signal where
  | SIGINT
  | SIGTERM
  deriving DecidableEq, Repr

/-- The method `Signal.String`, which `%v` prints. -/
def Signal.String : Signal → String
  | .SIGINT => "interrupt"
  | .SIGTERM => "terminated"

/-- What the network returns during one probe: the error of
`http.NewRequest`, and the two results of `client.Do`, the `Status` of the
response (`none` for a nil `*http.Response`) and the error. -/
structure Probe where
  reqErr : Option String
  response : Option String
  doErr : Option String
  deriving DecidableEq, Repr

/-- Where the main goroutine is: executing, parked for ever on a channel
send, or gone because the process has exited with a code. -/
inductive Run where
  | live
  | blocked
  | exited (code : Nat)
  deriving DecidableEq, Repr

/-- The state of the process. `tick`, `ossig` and `done` are the buffers of
the three channels of `main`, each of capacity 1; `readiness` is the package
variable; `serverClosed` is set by `server.Close()`; `stdout` and `stderr`
are the writes made so far; `responses` are the HTTP responses sent so far,
each with the request it answers. -/
structure Proc where
  config : Config
  readiness : BoolMap
  tick : List Unit
  ossig : List Signal
  done : List Bool
  serverClosed : Bool
  stdout : List String
  stderr : List String
  responses : List (Request × Response)
  run : Run
  deriving DecidableEq, Repr

/-- The capacity of each of the three channels. -/
def chanCap : Nat := 1

/-- The package variable `errorLogger`, on the current standard output. -/
def errorLogger (s : Proc) : Logger := Logger.New s.stdout "  error|" LstdFlags

/-- The package variable `serverLogger`, on the current standard output. -/
def serverLogger (s : Proc) : Logger := Logger.New s.stdout " server|" LstdFlags

/-- The package variable `serviceLogger`, on the current standard output. -/
def serviceLogger (s : Proc) : Logger := Logger.New s.stdout "service|" LstdFlags

/-- The standard logger of package `log`, on the current standard error. -/
def stdLogger (s : Proc) : Logger := Logger.New s.stderr "" LstdFlags

/-- The function `os.Exit`: the process ends with the code. Nothing runs in a
process that has already exited, so there the call is never reached. -/
def osExit (code : Nat) (s : Proc) : Proc :=
  match s.run with
  | .exited _ => s
  | _ => { s with run := .exited code }

/-- The function `log.Fatal` of one operand: prints it with the standard
logger, then calls `os.Exit(1)`. -/
def logFatal (hdr : String) (v : Arg) (s : Proc) : Proc :=
  osExit 1 { s with stderr := ((stdLogger s).Output hdr (Sprint v)).out }

/-- The deferred function of `main` once `recover()` has returned the
non-nil panic value `r`: `log.Fatal(r)`, then `os.Exit(ExitCodeMainFailed)`. -/
def mainRecover (hdr r : String) (s : Proc) : Proc :=
  osExit ExitCodeMainFailed (logFatal hdr (.str r) s)

/-- The deferred function of `init` once `recover()` has returned the
non-nil panic value `r`: `log.Fatal(r)`, then `os.Exit(ExitCodeInitFailed)`. -/
def initRecover (hdr r : String) (s : Proc) : Proc :=
  osExit ExitCodeInitFailed (logFatal hdr (.str r) s)

/-- The text of the run-time panic raised by a nil pointer dereference. -/
def nilDereference : String :=
  "runtime error: invalid memory address or nil pointer dereference"

/-- The body of `case <-tick:`. Both errors go through `handleError` with
`errorLogger`; then `response.Status` is read for the `Printf`, which panics
when `response` is nil. The result is the state reached and the panic value,
if the body panicked. -/
def tickBody (hdr : String) (p : Probe) (s : Proc) : Proc × Option String :=
  let s1 := { s with stdout := (handleError p.reqErr hdr (errorLogger s)).out }
  let s2 := { s1 with stdout := (handleError p.doErr hdr (errorLogger s1)).out }
  match p.response with
  | none => (s2, some nilDereference)
  | some status =>
    ({ s2 with stdout := ((serviceLogger s2).Printf hdr "> %s -> '%s'\n"
        [.str s2.config.getTargetURL, .str status]).out }, none)

/-- The body of `case sig := <-ossig:` for the signal received: the `Printf`,
then the send `done <- true`, which needs room in the buffer of `done`;
without room the main goroutine, the only receiver of `done`, parks on the
send. -/
def ossigBody (hdr : String) (sig : Signal) (s : Proc) : Proc :=
  let s1 := { s with stdout := ((serviceLogger s).Printf hdr
    "received termination signal '%v', shutting down server now\n" [.str sig.String]).out }
  if s1.done.length < chanCap then { s1 with done := s1.done ++ [true] }
  else { s1 with run := .blocked }

/-- The body of `case <-done:`: `server.Close()`, the `Println`, then
`os.Exit(ExitCodeSuccess)`. -/
def doneBody (hdr : String) (s : Proc) : Proc :=
  let s1 := { s with serverClosed := true }
  let s2 := { s1 with stdout := ((serviceLogger s1).Println hdr (.str "exiting now...")).out }
  osExit ExitCodeSuccess s2

/-- The function `bodyAllowedForStatus` of `net/http`: a response with a
status 1xx, 204 or 304 carries no body. -/
def bodyAllowedForStatus (code : Nat) : Bool :=
  if 100 ≤ code ∧ code ≤ 199 then false
  else if code = 204 then false
  else if code = 304 then false
  else true

/-- What `http.Server` puts on the wire for the status and body a handler has
written: the status as written; the body as written, except that the server
discards the body writes of a handler that answers a `HEAD` request or has
written a status that allows no body. -/
def sentResponse (r : Request) (resp : Response) : Response :=
  if r.Method = "HEAD" ∨ bodyAllowedForStatus resp.code = false then { resp with body := "" }
  else resp

/-- The handler `createServer` installs: `requestLoggerMiddleware` around the
mux. The wrapped handler runs and the server sends its response, then the
request is logged with `serverLogger`. -/
def serveRequest (hdr : String) (r : Request) (s : Proc) : Proc :=
  let resp := createMux.ServeHTTP s.readiness r
  { s with
    responses := s.responses ++ [(r, sentResponse r resp)]
    stdout := ((serverLogger s).Output hdr (requestLogLine r)).out }

/-- The state in which `main` enters its loop, for the configuration `init`
has loaded: the two start-up lines are printed, the three channels are
empty, the server is listening. -/
def mainSetup (hdr : String) (config : Config) : Proc :=
  let s0 : Proc :=
    { config := config, readiness := readinessInit, tick := [], ossig := [], done := [],
      serverClosed := false, stdout := [], stderr := [], responses := [], run := .live }
  let s1 := { s0 with stdout := ((serviceLogger s0).Printf hdr "initialising service...\n" []).out }
  let addr := Sprintf "%s:%v" [.str config.Interface, .uint config.Port]
  { s1 with stdout := ((serviceLogger s1).Printf hdr
      "attempting to listen on '%s'...\n" [.str addr]).out }

/-- What can happen to the process: the ticker fires, the operating system
delivers a signal, the server goroutine serves a request, or the `select` of
the main goroutine takes one of its three cases. -/
inductive Event where
  | timer
  | signal (sig : Signal)
  | request (r : Request)
  | selectTick (p : Probe)
  | selectOssig
  | selectDone
  deriving DecidableEq, Repr

/-- One step of the process; `none` when the event cannot happen in the
state. `hdr` is the header of the log lines printed during the step.

* Nothing happens in a process that has exited.
* The ticker and `signal.Notify` send without blocking: the value is
  dropped when the buffer of the channel is full.
* A request is served while the server is not closed.
* The `select` takes a case only while the main goroutine is live and the
  channel of the case holds a value; which ready case it takes is not
  determined. A panic in the body of a case runs the deferred function of
  `main`. -/
def step (hdr : String) (s : Proc) : Event → Option Proc
  | .timer =>
    match s.run with
    | .exited _ => none
    | _ => some (if s.tick.length < chanCap then { s with tick := s.tick ++ [()] } else s)
  | .signal sig =>
    match s.run with
    | .exited _ => none
    | _ => some (if s.ossig.length < chanCap then { s with ossig := s.ossig ++ [sig] } else s)
  | .request r =>
    match s.run with
    | .exited _ => none
    | _ => if s.serverClosed then none else some (serveRequest hdr r s)
  | .selectTick p =>
    match s.run, s.tick with
    | .live, _ :: rest =>
      match tickBody hdr p { s with tick := rest } with
      | (s1, none) => some s1
      | (s1, some r) => some (mainRecover hdr r s1)
    | _, _ => none
  | .selectOssig =>
    match s.run, s.ossig with
    | .live, sig :: rest => some (ossigBody hdr sig { s with ossig := rest })
    | _, _ => none
  | .selectDone =>
    match s.run, s.done with
    | .live, _ :: rest => some (doneBody hdr { s with done := rest })
    | _, _ => none

/-- A run of the process: the events of the list, each with the header of
its log lines, one after the other; `none` when one of them cannot happen. -/
def exec (s : Proc) : List (String × Event) → Option Proc
  | [] => some s
  | (hdr, e) :: rest =>
    match step hdr s e with
    | some s1 => exec s1 rest
    | none => none

/-- The three states of the lifecycle loop. -/
inductive LoopState where
  | Running
  | ShuttingDown
  | Terminated
  deriving DecidableEq, Repr

/-- The state of the lifecycle loop the process is in: `Terminated` once it
has exited, `ShuttingDown` while a shutdown request waits in `done`,
`Running` otherwise. -/
def Proc.loopState (s : Proc) : LoopState :=
  match s.run with
  | .exited _ => .Terminated
  | _ => if s.done = [] then .Running else .ShuttingDown

/-- The exit code of the process, once it has exited. -/
def Proc.exitCode (s : Proc) : Option Nat :=
  match s.run with
  | .exited code => some code
  | _ => none

/-! ## Text containment and concrete inputs -/

/-- Text containment: the characters of `t` occur in `s` as one contiguous
run (Go's `strings.Contains`). -/
def Contains (s t : String) : Prop := t.data <:+: s.data

instance (s t : String) : Decidable (Contains s t) := by
  unfold Contains; infer_instance

/-- The configuration `init` loads when no environment variable is set. -/
def defaultConfig : Config :=
  { Interface := DefaultInterface, PingTimeout := 10000000000, Port := DefaultPort,
    TargetHost := DefaultTargetHost, TargetPath := "", TargetPort := DefaultPort,
    TargetProto := DefaultTargetProto }

/-- A header as `LstdFlags` renders it. -/
def stamp : String := "2024/01/01 00:00:00 "

/-- A probe of a target that answers. -/
def answered : Probe := ⟨none, some "200 OK", none⟩

/-- A probe of a target nothing listens on: `client.Do` returns a nil
response and an error. -/
def refused : Probe :=
  ⟨none, none, some "Get \"http://localhost:8000/\": dial tcp 127.0.0.1:8000: connect: connection refused"⟩

/-- The process in its loop with the default configuration. -/
def started : Proc := mainSetup stamp defaultConfig

/-- A request for the path "/readyz". -/
def readyzRequest : Request := ⟨"localhost:8000", "127.0.0.1:40000", "HTTP/1.1", "GET", "/readyz"⟩

/-- A `HEAD` request for the path "/readyz". -/
def headReadyzRequest : Request :=
  ⟨"localhost:8000", "127.0.0.1:40000", "HTTP/1.1", "HEAD", "/readyz"⟩

/-- One `HEAD` request for "/readyz". -/
def headRun : List (String × Event) := [(stamp, .request headReadyzRequest)]

/-- A `GET` and a `HEAD` request for "/readyz" around an answered probe. -/
def mixedRun : List (String × Event) :=
  [(stamp, .request readyzRequest), (stamp, .timer), (stamp, .selectTick answered),
   (stamp, .request headReadyzRequest)]

/-- One tick with a probe that is refused. -/
def refusedRun : List (String × Event) :=
  [(stamp, .timer), (stamp, .selectTick refused)]

/-- One termination signal, handled by the loop. -/
def signalRun : List (String × Event) :=
  [(stamp, .signal .SIGTERM), (stamp, .selectOssig)]

/-- Two termination signals, each handled by the loop before the shutdown
request of the first is consumed. -/
def twoSignalsRun : List (String × Event) :=
  signalRun ++ [(stamp, .signal .SIGTERM), (stamp, .selectOssig)]

/-- A run with a request, an answered probe, a signal, a probe during
shutdown, and the shutdown. -/
def fullRun : List (String × Event) :=
  [(stamp, .request readyzRequest), (stamp, .timer), (stamp, .selectTick answered),
   (stamp, .signal .SIGINT), (stamp, .selectOssig), (stamp, .request readyzRequest),
   (stamp, .timer), (stamp, .selectTick answered), (stamp, .selectDone)]

/-- The loop with a tick and a signal waiting in their channels. -/
def pending : Proc := { started with tick := [()], ossig := [.SIGTERM] }

/-- The loop with a shutdown request waiting in `done`. -/
def shutting : Proc := { started with done := [true] }

/-- The state at the end of `fullRun`. -/
def fullRunEnd : Proc := (exec started fullRun).getD started

/-- The state at the end of `mixedRun`. -/
def mixedRunEnd : Proc := (exec started mixedRun).getD started

/-- The body sent in answer to a request for "/readyz" while
`readiness["target_up"]` is false: none for a `HEAD` request, "not ready"
otherwise. -/
def notReadyBody (r : Request) : String :=
  if r.Method = "HEAD" then "" else "not ready"

/-- What every step keeps: the readiness map is the one `main.go` declares,
and every response sent for "/readyz" has status 418 and the body
`notReadyBody`. -/
def NeverReady (s : Proc) : Prop :=
  s.readiness = readinessInit ∧
    ∀ r resp, (r, resp) ∈ s.responses → r.Path = "/readyz" → resp = ⟨418, notReadyBody r⟩

/-! ## Lemmas on the embedding -/

theorem join_snoc (xs : List String) (x : String) :
    String.join (xs ++ [x]) = String.join xs ++ x := by
  simp [String.join, List.foldl_append]

theorem contains_append_left (a s t : String) (h : Contains s t) : Contains (a ++ s) t := by
  obtain ⟨u, v, huv⟩ := h
  exact ⟨a.data ++ u, v, by simp [String.data_append, ← huv]⟩

theorem contains_append_right (s b t : String) (h : Contains s t) : Contains (s ++ b) t := by
  obtain ⟨u, v, huv⟩ := h
  exact ⟨u, v ++ b.data, by simp [String.data_append, ← huv]⟩

theorem contains_self (t : String) : Contains t t := List.infix_refl _

/-- A line printed by `Println` ends in the newline `Sprintln` has added, so
`Output` adds none. -/
theorem line_sprintln (l : Logger) (hdr e : String) :
    l.line hdr (Sprintln (.str e)) =
      (if l.flag &&& Lmsgprefix = 0 then l.pre ++ hdr else hdr ++ l.pre) ++ e ++ "\n" := by
  have h : (Sprintln (.str e)).data.getLast? = some '\n' := by
    simp [Sprintln, Arg.default, String.data_append]
  simp [Logger.line, h, Sprintln, Arg.default, String.append_assoc]

theorem line_contains_error (l : Logger) (hdr e : String) :
    Contains (l.line hdr (Sprintln (.str e))) e := by
  rw [line_sprintln]
  exact contains_append_right _ _ _ (contains_append_left _ _ _ (contains_self e))

theorem sprintf_targetURL (a b d : String) (n : Nat) :
    Sprintf "%s://%s:%v/%s" [.str a, .str b, .uint n, .str d]
      = a ++ "://" ++ b ++ ":" ++ Nat.repr n ++ "/" ++ d := by
  apply String.ext
  have h : "%s://%s:%v/%s".data =
      ['%', 's', ':', '/', '/', '%', 's', ':', '%', 'v', '/', '%', 's'] := rfl
  simp [Sprintf, h, sprintfChars, Arg.format]

theorem readyz_writes (o : Option Bool) :
    (if (match o with
        | some b => b
        | none => false) = true then
        (ResponseWriter.new.WriteHeader StatusOK).Write "ready"
      else (ResponseWriter.new.WriteHeader StatusTeapot).Write "not ready").result =
      match o with
      | some true => (⟨200, "ready"⟩ : Response)
      | some false => ⟨418, "not ready"⟩
      | none => ⟨418, "not ready"⟩ := by
  rcases o with _ | _ | _ <;>
    simp [ResponseWriter.WriteHeader, ResponseWriter.Write, ResponseWriter.result,
      ResponseWriter.new, StatusTeapot, StatusOK]

theorem readyz_routed : createMux.handler "/readyz" = readyzHandler := by
  simp [ServeMux.handler, ServeMux.registered, createMux, List.lookup]

theorem healthz_routed : createMux.handler "/healthz" = healthzHandler := by
  simp [ServeMux.handler, ServeMux.registered, createMux, List.lookup]

theorem readyz_served (readiness : BoolMap) (r : Request) :
    createMux.ServeHTTP readiness { r with Path := "/readyz" } =
      match readiness.lookup "target_up" with
      | some true => ⟨200, "ready"⟩
      | some false => ⟨418, "not ready"⟩
      | none => ⟨418, "not ready"⟩ := by
  simp only [ServeMux.ServeHTTP, readyz_routed, readyzHandler, BoolMap.get]
  exact readyz_writes _

/-! ## The claims on the routes, the target URL and `handleError` -/

/-- C1: for every value of the readiness map and every request for the path
"/readyz", the mux of `createMux` answers with status 200 and body "ready"
when `readiness["target_up"]` is true, and with status 418 and body
"not ready" when it is false or the key is absent. -/
theorem C1_readyz_by_readiness (readiness : BoolMap) (r : Request) :
    createMux.registered "/readyz" = some readyzHandler ∧
    createMux.ServeHTTP readiness { r with Path := "/readyz" } =
      match readiness.lookup "target_up" with
      | some true => ⟨200, "ready"⟩
      | some false => ⟨418, "not ready"⟩
      | none => ⟨418, "not ready"⟩ :=
  ⟨by simp [ServeMux.registered, createMux, List.lookup], readyz_served readiness r⟩

/-- C2: for every value of the readiness map and every request for the path
"/healthz", the mux of `createMux` answers with status 200 and body "alive";
two readiness maps give the same response. -/
theorem C2_healthz_always_alive (readiness other : BoolMap) (r : Request) :
    createMux.registered "/healthz" = some healthzHandler ∧
    createMux.ServeHTTP readiness { r with Path := "/healthz" } = ⟨200, "alive"⟩ ∧
    createMux.ServeHTTP readiness { r with Path := "/healthz" } =
      createMux.ServeHTTP other { r with Path := "/healthz" } := by
  have h : ∀ m : BoolMap, createMux.ServeHTTP m { r with Path := "/healthz" } = ⟨200, "alive"⟩ := by
    intro m
    simp [ServeMux.ServeHTTP, healthz_routed, healthzHandler, ResponseWriter.WriteHeader,
      ResponseWriter.Write, ResponseWriter.result, ResponseWriter.new, StatusOK]
  exact ⟨by simp [ServeMux.registered, createMux, List.lookup], h readiness,
    (h readiness).trans (h other).symm⟩

/-- C3: for every `Config`, `getTargetURL` is the protocol, "://", the host,
":", the port in decimal, "/" and the path; changing the fields `Interface`,
`PingTimeout` and `Port` does not change it; and for "http", "example.com",
8080 and "status" it is "http://example.com:8080/status". -/
theorem C3_getTargetURL_format (c : Config) (i : String) (t p : Nat) :
    c.getTargetURL =
      c.TargetProto ++ "://" ++ c.TargetHost ++ ":" ++ Nat.repr c.TargetPort ++ "/" ++
        c.TargetPath ∧
    Config.getTargetURL { c with Interface := i, PingTimeout := t, Port := p } = c.getTargetURL ∧
    Config.getTargetURL
      { c with TargetProto := "http", TargetHost := "example.com", TargetPort := 8080,
               TargetPath := "status" } = "http://example.com:8080/status" :=
  ⟨sprintf_targetURL _ _ _ _, rfl, by
    rw [Config.getTargetURL, sprintf_targetURL]
    show "http" ++ "://" ++ "example.com" ++ ":" ++ Nat.repr 8080 ++ "/" ++ "status" = _
    decide⟩

/-- C4: for every non-nil error and every logger, `handleError` makes exactly
one write to the logger's output, after the writes already there; the line
written contains the text of the error, and so does the content of the
output. With the logger and the error of `Test_handleError`, the buffer
contains "___ mock error". -/
theorem C4_handleError_logs_once (e hdr : String) (l : Logger) :
    (handleError (some e) hdr l).out = l.out ++ [l.line hdr (Sprintln (.str e))] ∧
    (handleError (some e) hdr l).out.length = l.out.length + 1 ∧
    Contains (l.line hdr (Sprintln (.str e))) e ∧
    Contains (handleError (some e) hdr l).text e ∧
    Contains (handleError (some "___ mock error") hdr (Logger.New [] "mock" LstdFlags)).text
      "___ mock error" := by
  have hout : ∀ (x : String) (k : Logger),
      (handleError (some x) hdr k).out = k.out ++ [k.line hdr (Sprintln (.str x))] := by
    intro x k; rfl
  have htext : ∀ (x : String) (k : Logger), Contains (handleError (some x) hdr k).text x := by
    intro x k
    rw [Logger.text, hout, join_snoc]
    exact contains_append_left _ _ _ (line_contains_error k hdr x)
  exact ⟨hout e l, by simp [hout], line_contains_error l hdr e, htext e l, htext _ _⟩

/-- C5: for every logger, `handleError` with a nil error returns the logger
as it was: nothing is written. -/
theorem C5_handleError_nil_silent (hdr : String) (l : Logger) :
    handleError none hdr l = l ∧ (handleError none hdr l).out = l.out :=
  ⟨rfl, rfl⟩


/-! ## Lemmas on the process -/

theorem exec_invariant (P : Proc → Prop)
    (hstep : ∀ hdr s e s', P s → step hdr s e = some s' → P s') :
    ∀ (tr : List (String × Event)) (s s' : Proc), P s → exec s tr = some s' → P s' := by
  intro tr
  induction tr with
  | nil =>
    intro s s' hP h
    simp only [exec, Option.some.injEq] at h
    exact h ▸ hP
  | cons x rest ih =>
    intro s s' hP h
    obtain ⟨hdr, e⟩ := x
    simp only [exec] at h
    cases hs : step hdr s e with
    | none => simp [hs] at h
    | some s1 =>
      rw [hs] at h
      exact ih s1 s' (hstep hdr s e s1 hP hs) h

theorem osExit_readiness (c : Nat) (s : Proc) : (osExit c s).readiness = s.readiness := by
  unfold osExit; split <;> rfl

theorem osExit_responses (c : Nat) (s : Proc) : (osExit c s).responses = s.responses := by
  unfold osExit; split <;> rfl

theorem osExit_done (c : Nat) (s : Proc) : (osExit c s).done = s.done := by
  unfold osExit; split <;> rfl

theorem osExit_live (c : Nat) (s : Proc) (h : s.run = .live) : (osExit c s).run = .exited c := by
  unfold osExit; rw [h]

theorem osExit_exited (c d : Nat) (s : Proc) (h : s.run = .exited d) : osExit c s = s := by
  unfold osExit; rw [h]

theorem mainRecover_live (hdr r : String) (s : Proc) (h : s.run = .live) :
    (mainRecover hdr r s).run = .exited 1 := by
  have h1 : (logFatal hdr (.str r) s).run = .exited 1 := osExit_live 1 _ h
  unfold mainRecover
  rw [osExit_exited _ 1 _ h1, h1]

theorem tickBody_frame (hdr : String) (p : Probe) (s : Proc) :
    (tickBody hdr p s).1.readiness = s.readiness ∧
    (tickBody hdr p s).1.responses = s.responses ∧
    (tickBody hdr p s).1.done = s.done ∧
    (tickBody hdr p s).1.run = s.run ∧
    (tickBody hdr p s).1.serverClosed = s.serverClosed := by
  unfold tickBody
  cases p.response <;> simp

theorem mainRecover_frame (hdr r : String) (s : Proc) :
    (mainRecover hdr r s).readiness = s.readiness ∧
    (mainRecover hdr r s).responses = s.responses ∧
    (mainRecover hdr r s).done = s.done := by
  simp [mainRecover, logFatal, osExit_readiness, osExit_responses, osExit_done]


theorem ossigBody_frame (hdr : String) (sig : Signal) (s : Proc) :
    (ossigBody hdr sig s).readiness = s.readiness ∧
    (ossigBody hdr sig s).responses = s.responses ∧
    (ossigBody hdr sig s).serverClosed = s.serverClosed := by
  unfold ossigBody
  simp only []
  split <;> exact ⟨rfl, rfl, rfl⟩

theorem doneBody_frame (hdr : String) (s : Proc) :
    (doneBody hdr s).readiness = s.readiness ∧
    (doneBody hdr s).responses = s.responses := by
  unfold doneBody
  simp only [osExit_readiness, osExit_responses, and_self]

theorem readyz_not_ready (r : Request) (h : r.Path = "/readyz") :
    createMux.ServeHTTP readinessInit r = ⟨418, "not ready"⟩ := by
  have h1 := readyz_served readinessInit r
  have h2 : ({ r with Path := "/readyz" } : Request) = r := by rw [← h]
  rw [h2] at h1
  rw [h1]
  rfl

theorem sent_not_ready (r : Request) (h : r.Path = "/readyz") :
    sentResponse r (createMux.ServeHTTP readinessInit r) = ⟨418, notReadyBody r⟩ := by
  rw [readyz_not_ready r h]
  unfold sentResponse notReadyBody
  by_cases hm : r.Method = "HEAD" <;> simp [hm, bodyAllowedForStatus]

theorem step_neverReady (hdr : String) (s : Proc) (e : Event) (s' : Proc)
    (hP : NeverReady s) (h : step hdr s e = some s') : NeverReady s' := by
  obtain ⟨hr, hresp⟩ := hP
  cases e with
  | timer =>
    simp only [step] at h
    split at h
    · simp at h
    · simp only [Option.some.injEq] at h
      subst h
      split <;> exact ⟨hr, hresp⟩
  | signal sig =>
    simp only [step] at h
    split at h
    · simp at h
    · simp only [Option.some.injEq] at h
      subst h
      split <;> exact ⟨hr, hresp⟩
  | request r =>
    simp only [step] at h
    split at h
    · simp at h
    · split at h
      · simp at h
      · simp only [Option.some.injEq] at h
        subst h
        refine ⟨hr, ?_⟩
        intro q resp hmem hpath
        simp only [serveRequest, List.mem_append, List.mem_singleton, Prod.mk.injEq] at hmem
        rcases hmem with hmem | ⟨hp, hq⟩
        · exact hresp q resp hmem hpath
        · rw [hq, hr, ← hp]
          exact sent_not_ready q hpath
  | selectTick p =>
    simp only [step] at h
    split at h
    · rename_i u rest hrun htick
      have hf := tickBody_frame hdr p { s with tick := rest }
      split at h
      · rename_i s1 hb
        simp only [Option.some.injEq] at h
        subst h
        rw [hb] at hf
        exact ⟨hf.1.trans hr, fun q resp hm => hresp q resp (hf.2.1 ▸ hm)⟩
      · rename_i s1 r hb
        simp only [Option.some.injEq] at h
        subst h
        rw [hb] at hf
        have hm := mainRecover_frame hdr r s1
        exact ⟨hm.1.trans (hf.1.trans hr),
          fun q resp hx => hresp q resp (hf.2.1 ▸ hm.2.1 ▸ hx)⟩
    · simp at h
  | selectOssig =>
    simp only [step] at h
    split at h
    · simp only [Option.some.injEq] at h
      subst h
      rename_i sig rest hrun hsig
      have hf := ossigBody_frame hdr sig { s with ossig := rest }
      exact ⟨hf.1.trans hr, fun q resp hx => hresp q resp (hf.2.1 ▸ hx)⟩
    · simp at h
  | selectDone =>
    simp only [step] at h
    split at h
    · simp only [Option.some.injEq] at h
      subst h
      rename_i u rest hrun hdone
      have hf := doneBody_frame hdr { s with done := rest }
      exact ⟨hf.1.trans hr, fun q resp hx => hresp q resp (hf.2 ▸ hx)⟩
    · simp at h

theorem setup_neverReady (hdr : String) (config : Config) :
    NeverReady (mainSetup hdr config) :=
  ⟨rfl, fun _ _ hm => by simp [mainSetup] at hm⟩

theorem step_exited (hdr : String) (s : Proc) (e : Event) (c : Nat) (h : s.run = .exited c) :
    step hdr s e = none := by
  cases e <;> simp [step, h]

/-- One step that leaves a shutdown request in `done`, or the process exited
with code 0, either started from such a state or is the OS-signal case. -/
theorem step_shutdown_origin (hdr : String) (s : Proc) (e : Event) (s' : Proc)
    (h : step hdr s e = some s') (h' : s'.done ≠ [] ∨ s'.exitCode = some 0) :
    (s.done ≠ [] ∨ s.exitCode = some 0) ∨ e = .selectOssig := by
  cases e with
  | timer =>
    simp only [step] at h
    split at h
    · simp at h
    · simp only [Option.some.injEq] at h
      subst h
      left
      split at h' <;> exact h'
  | signal sig =>
    simp only [step] at h
    split at h
    · simp at h
    · simp only [Option.some.injEq] at h
      subst h
      left
      split at h' <;> exact h'
  | request r =>
    simp only [step] at h
    split at h
    · simp at h
    · split at h
      · simp at h
      · simp only [Option.some.injEq] at h
        subst h
        left
        exact h'
  | selectTick p =>
    simp only [step] at h
    split at h
    · rename_i u rest hrun htick
      have hf := tickBody_frame hdr p { s with tick := rest }
      split at h
      · rename_i s1 hb
        simp only [Option.some.injEq] at h
        subst h
        rw [hb] at hf
        left
        rcases h' with h' | h'
        · exact Or.inl (hf.2.2.1 ▸ h')
        · have hl : s1.run = .live := hf.2.2.2.1.trans hrun
          simp [Proc.exitCode, hl] at h'
      · rename_i s1 r hb
        simp only [Option.some.injEq] at h
        subst h
        rw [hb] at hf
        left
        rcases h' with h' | h'
        · exact Or.inl (hf.2.2.1 ▸ (mainRecover_frame hdr r s1).2.2 ▸ h')
        · have hl : s1.run = .live := hf.2.2.2.1.trans hrun
          simp [Proc.exitCode, mainRecover_live hdr r s1 hl] at h'
    · simp at h
  | selectOssig => exact Or.inr rfl
  | selectDone =>
    simp only [step] at h
    split at h
    · rename_i u rest hrun hdone
      left; left
      rw [hdone]
      exact List.cons_ne_nil _ _
    · simp at h

theorem exec_shutdown_origin :
    ∀ (tr : List (String × Event)) (s s' : Proc), exec s tr = some s' →
      (s'.done ≠ [] ∨ s'.exitCode = some 0) →
      (s.done ≠ [] ∨ s.exitCode = some 0) ∨ ∃ hdr, (hdr, Event.selectOssig) ∈ tr := by
  intro tr
  induction tr with
  | nil =>
    intro s s' h h'
    simp only [exec, Option.some.injEq] at h
    exact Or.inl (h ▸ h')
  | cons x rest ih =>
    intro s s' h h'
    obtain ⟨hdr, e⟩ := x
    simp only [exec] at h
    cases hs : step hdr s e with
    | none => simp [hs] at h
    | some s1 =>
      rw [hs] at h
      rcases ih s1 s' h h' with h1 | ⟨k, hk⟩
      · rcases step_shutdown_origin hdr s e s1 hs h1 with h2 | h2
        · exact Or.inl h2
        · exact Or.inr ⟨hdr, by rw [h2]; exact List.mem_cons_self _ _⟩
      · exact Or.inr ⟨k, List.mem_cons_of_mem _ hk⟩

theorem tick_answered (hdr : String) (s : Proc) (p : Probe) (status : String)
    (hrun : s.run = .live) (htick : s.tick ≠ []) (hresp : p.response = some status) :
    ∃ s', step hdr s (.selectTick p) = some s' ∧ s'.loopState = s.loopState ∧
      s'.run = .live ∧ s'.done = s.done ∧ s'.serverClosed = s.serverClosed ∧
      s'.stdout.getLast? = some ((serviceLogger s).line hdr
        (Sprintf "> %s -> '%s'\n" [.str s.config.getTargetURL, .str status])) := by
  obtain ⟨u, rest, hrest⟩ := List.exists_cons_of_ne_nil htick
  refine ⟨(tickBody hdr p { s with tick := rest }).1, ?_, ?_, ?_, ?_, ?_, ?_⟩
  · simp only [step, hrun, hrest]
    simp [tickBody, hresp]
  · simp [tickBody, hresp, Proc.loopState]
  · simp [tickBody, hresp, hrun]
  · simp [tickBody, hresp]
  · simp [tickBody, hresp]
  · simp [tickBody, hresp, Logger.Printf, Logger.Output, serviceLogger, Logger.New, Logger.line]

theorem ossig_running (hdr : String) (s : Proc)
    (hrun : s.run = .live) (hsig : s.ossig ≠ []) (hstate : s.loopState = .Running) :
    ∃ s', step hdr s .selectOssig = some s' ∧ s'.done = [true] ∧
      s'.loopState = .ShuttingDown ∧ s'.run = .live ∧ s'.serverClosed = s.serverClosed := by
  obtain ⟨sig, rest, hrest⟩ := List.exists_cons_of_ne_nil hsig
  have hdone : s.done = [] := by
    simp only [Proc.loopState, hrun] at hstate
    by_contra hne
    simp [hne] at hstate
  refine ⟨ossigBody hdr sig { s with ossig := rest }, ?_, ?_, ?_, ?_, ?_⟩
  · simp only [step, hrun, hrest]
  · simp [ossigBody, hdone, chanCap]
  · simp [ossigBody, hdone, chanCap, Proc.loopState, hrun]
  · simp [ossigBody, hdone, chanCap, hrun]
  · simp [ossigBody, hdone, chanCap]

theorem done_shuttingDown (hdr : String) (s : Proc)
    (hrun : s.run = .live) (hstate : s.loopState = .ShuttingDown) :
    ∃ s', step hdr s .selectDone = some s' ∧ s'.serverClosed = true ∧
      s'.exitCode = some 0 ∧ s'.loopState = .Terminated := by
  have hdone : s.done ≠ [] := by
    simp only [Proc.loopState, hrun] at hstate
    intro hne
    simp [hne] at hstate
  obtain ⟨u, rest, hrest⟩ := List.exists_cons_of_ne_nil hdone
  refine ⟨doneBody hdr { s with done := rest }, ?_, ?_, ?_, ?_⟩
  · simp only [step, hrun, hrest]
  · simp [doneBody, osExit, hrun]
  · simp [doneBody, osExit, hrun, Proc.exitCode, ExitCodeSuccess]
  · simp [doneBody, osExit, hrun, Proc.loopState]

theorem terminated_stuck (hdr : String) (s : Proc) (hstate : s.loopState = .Terminated)
    (e : Event) : step hdr s e = none := by
  cases hrun : s.run with
  | exited c => exact step_exited hdr s e c hrun
  | live =>
    simp only [Proc.loopState, hrun] at hstate
    split at hstate <;> simp at hstate
  | blocked =>
    simp only [Proc.loopState, hrun] at hstate
    split at hstate <;> simp at hstate

theorem done_not_in_running (hdr : String) (s : Proc) (hstate : s.loopState = .Running) :
    step hdr s .selectDone = none := by
  cases hrun : s.run with
  | exited c => exact step_exited hdr s _ c hrun
  | live =>
    simp only [Proc.loopState, hrun] at hstate
    have hdone : s.done = [] := by
      by_contra hne
      simp [hne] at hstate
    simp [step, hrun, hdone]
  | blocked => simp [step, hrun]

theorem tick_not_terminated (hdr : String) (s : Proc) (p : Probe)
    (h : (step hdr s (.selectTick p)).isSome = true) :
    s.loopState = .Running ∨ s.loopState = .ShuttingDown := by
  cases hrun : s.run with
  | exited c => simp [step_exited hdr s _ c hrun] at h
  | live =>
    simp only [Proc.loopState, hrun]
    split <;> simp
  | blocked => simp [step, hrun] at h


/-- A tick handled while the main goroutine is live, with a probe that
returns no response, ends the process with exit code 1. -/
theorem tick_nil_response_exits (hdr : String) (s : Proc) (p : Probe)
    (hrun : s.run = .live) (htick : s.tick ≠ []) (hresp : p.response = none) :
    ∃ s', step hdr s (.selectTick p) = some s' ∧ s'.run = .exited 1 ∧
      s'.loopState = .Terminated := by
  obtain ⟨u, rest, hrest⟩ := List.exists_cons_of_ne_nil htick
  have hf := tickBody_frame hdr p { s with tick := rest }
  have hlive : (tickBody hdr p { s with tick := rest }).1.run = .live := hf.2.2.2.1.trans hrun
  have hexit := mainRecover_live hdr nilDereference _ hlive
  refine ⟨mainRecover hdr nilDereference (tickBody hdr p { s with tick := rest }).1, ?_, hexit, ?_⟩
  · simp only [step, hrun, hrest]
    simp [tickBody, hresp]
  · simp [Proc.loopState, hexit]

theorem blocked_forever (tr : List (String × Event)) (s s' : Proc)
    (hb : s.run = .blocked) (h : exec s tr = some s') : s'.run = .blocked := by
  refine exec_invariant (fun x => x.run = .blocked) ?_ tr s s' hb h
  intro hdr x e x' hx hs
  cases e with
  | timer =>
    simp only [step, hx, Option.some.injEq] at hs
    subst hs
    split <;> first | exact hx | rfl
  | signal sig =>
    simp only [step, hx, Option.some.injEq] at hs
    subst hs
    split <;> first | exact hx | rfl
  | request r =>
    simp only [step, hx] at hs
    split at hs
    · simp at hs
    · simp only [Option.some.injEq] at hs
      subst hs
      exact hx
  | selectTick p => simp [step, hx] at hs
  | selectOssig => simp [step, hx] at hs
  | selectDone => simp [step, hx] at hs

/-! ## The claims on the lifecycle loop -/

/-- C6: evaluation at a tick whose probe is refused. The error of `client.Do`
is logged by `handleError`; then reading `response.Status` of the nil
response panics, the deferred function of `main` ends the process with exit
code 1, and no later tick is handled. -/
theorem C6_refused_probe_ends_process :
    (exec started refusedRun).map Proc.run = some (.exited 1) ∧
    (exec started refusedRun).map Proc.stdout = some
      ["service|2024/01/01 00:00:00 initialising service...\n",
       "service|2024/01/01 00:00:00 attempting to listen on '0.0.0.0:8000'...\n",
       "  error|2024/01/01 00:00:00 Get \"http://localhost:8000/\": dial tcp 127.0.0.1:8000: connect: connection refused\n"] ∧
    (exec started refusedRun).map Proc.loopState = some .Terminated ∧
    exec started (refusedRun ++ [(stamp, .timer)]) = none ∧
    exec started (refusedRun ++ [(stamp, .selectTick answered)]) = none := by
  refine ⟨rfl, ?_, rfl, rfl, rfl⟩
  decide

/-- C7: evaluation at a panic in the loop of `main`. The deferred function
logs the panic value on standard error with `log.Fatal`, which ends the
process with exit code 1, the value of `ExitCodeInitFailed`; the call
`os.Exit(ExitCodeMainFailed)` after it is not reached, so the exit code is
not 2: the deferred functions of `main` and of `init` end the process with
the same code. -/
theorem C7_recovered_panic_exits_with_one :
    (exec started refusedRun).map Proc.exitCode = some (some 1) ∧
    (exec started refusedRun).map Proc.exitCode = some (some ExitCodeInitFailed) ∧
    (exec started refusedRun).map Proc.exitCode ≠ some (some ExitCodeMainFailed) ∧
    (exec started refusedRun).map Proc.stderr = some
      ["2024/01/01 00:00:00 runtime error: invalid memory address or nil pointer dereference\n"] ∧
    (mainRecover stamp "boom" started).exitCode = some 1 ∧
    (initRecover stamp "boom" started).exitCode = some 1 := by
  refine ⟨rfl, rfl, by decide, ?_, rfl, rfl⟩
  decide

/-- C8, as the claim states it, fails: after an OS signal has been handled the
loop is in `ShuttingDown`, and a tick is handled there, the probe is executed
and the loop stays in `ShuttingDown`. -/
theorem C8_tick_handled_while_shutting_down :
    (exec started (signalRun ++ [(stamp, .timer)])).map Proc.loopState = some .ShuttingDown ∧
    (exec started (signalRun ++ [(stamp, .timer), (stamp, .selectTick answered)])).map
      Proc.loopState = some .ShuttingDown ∧
    (exec started (signalRun ++ [(stamp, .timer), (stamp, .selectTick answered)])).map
      Proc.stdout = some
      ["service|2024/01/01 00:00:00 initialising service...\n",
       "service|2024/01/01 00:00:00 attempting to listen on '0.0.0.0:8000'...\n",
       "service|2024/01/01 00:00:00 received termination signal 'terminated', shutting down server now\n",
       "service|2024/01/01 00:00:00 > http://localhost:8000/ -> '200 OK'\n"] := by
  refine ⟨rfl, rfl, ?_⟩
  decide

/-- C8, amended: while the main goroutine is live, a tick whose probe returns
a response is handled in `Running` and in `ShuttingDown`, prints the probe
line and leaves the loop state, `done` and the server as they were; an OS
signal taken in `Running` puts one shutdown request in `done` and moves to
`ShuttingDown` without closing the server or exiting; the shutdown request
taken in `ShuttingDown` closes the server and moves to `Terminated` with exit
code 0; `Terminated` has no step; no shutdown request is taken in `Running`;
a tick is handled only in `Running` or `ShuttingDown`; and a run that ends
with exit code 0 has handled an OS signal. -/
theorem C8_loop_transitions (hdr : String) (s : Proc) :
    (∀ p status, s.run = .live → s.tick ≠ [] → p.response = some status →
      ∃ s', step hdr s (.selectTick p) = some s' ∧ s'.loopState = s.loopState ∧
        s'.run = .live ∧ s'.done = s.done ∧ s'.serverClosed = s.serverClosed ∧
        s'.stdout.getLast? = some ((serviceLogger s).line hdr
          (Sprintf "> %s -> '%s'\n" [.str s.config.getTargetURL, .str status]))) ∧
    (s.run = .live → s.ossig ≠ [] → s.loopState = .Running →
      ∃ s', step hdr s .selectOssig = some s' ∧ s'.done = [true] ∧
        s'.loopState = .ShuttingDown ∧ s'.run = .live ∧ s'.serverClosed = s.serverClosed) ∧
    (s.run = .live → s.loopState = .ShuttingDown →
      ∃ s', step hdr s .selectDone = some s' ∧ s'.serverClosed = true ∧
        s'.exitCode = some 0 ∧ s'.loopState = .Terminated) ∧
    (s.loopState = .Terminated → ∀ e, step hdr s e = none) ∧
    (s.loopState = .Running → step hdr s .selectDone = none) ∧
    (∀ p, (step hdr s (.selectTick p)).isSome = true →
      s.loopState = .Running ∨ s.loopState = .ShuttingDown) ∧
    (∀ config tr, exec (mainSetup hdr config) tr = some s → s.exitCode = some 0 →
      ∃ k, (k, Event.selectOssig) ∈ tr) := by
  refine ⟨fun p status h1 h2 h3 => tick_answered hdr s p status h1 h2 h3,
    ossig_running hdr s, done_shuttingDown hdr s, terminated_stuck hdr s,
    done_not_in_running hdr s, tick_not_terminated hdr s, ?_⟩
  intro config tr h h0
  rcases exec_shutdown_origin tr _ s h (Or.inr h0) with h1 | h1
  · rcases h1 with h1 | h1
    · exact absurd rfl h1
    · simp [Proc.exitCode, mainSetup] at h1
  · exact h1

theorem fullRun_end : exec (mainSetup stamp defaultConfig) fullRun = some fullRunEnd := by
  have h : (exec started fullRun).isSome = true := rfl
  obtain ⟨x, hx⟩ := Option.isSome_iff_exists.mp h
  simp only [fullRunEnd, hx, Option.getD_some]
  exact hx

/-- C8, amended, at concrete states: a live loop with a tick and a signal
waiting, a loop with a shutdown request waiting, and the end of `fullRun`. -/
theorem C8_loop_transitions_witness :
    (∃ s', step stamp pending (.selectTick answered) = some s' ∧ s'.loopState = .Running) ∧
    (∃ s', step stamp pending .selectOssig = some s' ∧ s'.loopState = .ShuttingDown) ∧
    (∃ s', step stamp shutting .selectDone = some s' ∧ s'.exitCode = some 0) ∧
    step stamp fullRunEnd .timer = none ∧
    step stamp pending .selectDone = none ∧
    (pending.loopState = .Running ∨ pending.loopState = .ShuttingDown) ∧
    (∃ k, (k, Event.selectOssig) ∈ fullRun) := by
  obtain ⟨a, ha, ha', -⟩ :=
    (C8_loop_transitions stamp pending).1 answered "200 OK" rfl (by decide) rfl
  obtain ⟨b, hb, -, hb', -⟩ :=
    (C8_loop_transitions stamp pending).2.1 rfl (by decide) rfl
  obtain ⟨c, hc, -, hc', -⟩ :=
    (C8_loop_transitions stamp shutting).2.2.1 rfl rfl
  exact ⟨⟨a, ha, ha'⟩, ⟨b, hb, hb'⟩, ⟨c, hc, hc'⟩,
    (C8_loop_transitions stamp fullRunEnd).2.2.2.1 (by decide) .timer,
    (C8_loop_transitions stamp pending).2.2.2.2.1 rfl,
    (C8_loop_transitions stamp pending).2.2.2.2.2.1 answered rfl,
    (C8_loop_transitions stamp fullRunEnd).2.2.2.2.2.2 defaultConfig fullRun fullRun_end
      (by decide)⟩

/-- C9, as the claim states it, fails: a `HEAD` request for "/readyz" is
answered with status 418 and no body, since the server discards what the
handler writes as the body of the answer to a `HEAD` request; the answer is
not 418 "not ready". -/
theorem C9_head_readyz_has_no_body :
    (exec started headRun).map Proc.responses = some [(headReadyzRequest, ⟨418, ""⟩)] ∧
    (exec started headRun).map Proc.responses ≠
      some [(headReadyzRequest, ⟨418, "not ready"⟩)] ∧
    (exec started headRun).map Proc.readiness = some readinessInit := by
  refine ⟨?_, ?_, rfl⟩ <;> decide

/-- C9, amended: in every state reached from the start of the loop by any
run of ticker firings, signals, requests and `select` cases, the readiness
map is the one `main.go` declares, `readiness["target_up"]` is false, the
handler of "/readyz" writes 418 "not ready", and every request for "/readyz"
served so far was answered with status 418 and the body "not ready", except
a `HEAD` request, answered with status 418 and no body. -/
theorem C9_readiness_never_set (hdr : String) (config : Config)
    (tr : List (String × Event)) (s : Proc) (h : exec (mainSetup hdr config) tr = some s) :
    s.readiness = readinessInit ∧
    s.readiness.get "target_up" = false ∧
    (∀ r : Request, createMux.ServeHTTP s.readiness { r with Path := "/readyz" } =
      ⟨418, "not ready"⟩) ∧
    (∀ r resp, (r, resp) ∈ s.responses → r.Path = "/readyz" →
      resp.code = 418 ∧ resp.body = (if r.Method = "HEAD" then "" else "not ready")) := by
  have hinv : NeverReady s :=
    exec_invariant NeverReady step_neverReady tr _ s (setup_neverReady hdr config) h
  refine ⟨hinv.1, ?_, ?_, ?_⟩
  · rw [hinv.1]; rfl
  · intro r
    rw [hinv.1]
    exact readyz_not_ready _ rfl
  · intro r resp hm hp
    rw [hinv.2 r resp hm hp]
    exact ⟨rfl, rfl⟩

theorem mixedRun_end : exec (mainSetup stamp defaultConfig) mixedRun = some mixedRunEnd := by
  have h : (exec started mixedRun).isSome = true := rfl
  obtain ⟨x, hx⟩ := Option.isSome_iff_exists.mp h
  simp only [mixedRunEnd, hx, Option.getD_some]
  exact hx

/-- C9, amended, at the end of `mixedRun`, in which a `GET` and a `HEAD`
request for "/readyz" were served. -/
theorem C9_readiness_never_set_witness :
    exec (mainSetup stamp defaultConfig) mixedRun = some mixedRunEnd ∧
    mixedRunEnd.responses =
      [(readyzRequest, ⟨418, "not ready"⟩), (headReadyzRequest, ⟨418, ""⟩)] ∧
    mixedRunEnd.readiness = readinessInit ∧
    mixedRunEnd.readiness.get "target_up" = false ∧
    (∀ r : Request, createMux.ServeHTTP mixedRunEnd.readiness { r with Path := "/readyz" } =
      ⟨418, "not ready"⟩) ∧
    (∀ r resp, (r, resp) ∈ mixedRunEnd.responses → r.Path = "/readyz" →
      resp.code = 418 ∧ resp.body = (if r.Method = "HEAD" then "" else "not ready")) :=
  ⟨mixedRun_end, by decide,
    C9_readiness_never_set stamp defaultConfig mixedRun mixedRunEnd mixedRun_end⟩

/-- C10: evaluation at two signals handled before the shutdown request of the
first is consumed. When the OS-signal case is taken the second time `done`
is full, the send `done <- true` finds no room, and the main goroutine is
parked on it: no case of the `select` is taken any more, the shutdown request
is never consumed and the process never exits. -/
theorem C10_second_signal_blocks_on_send :
    (exec started (signalRun ++ [(stamp, .signal .SIGTERM)])).map Proc.done = some [true] ∧
    (exec started (signalRun ++ [(stamp, .signal .SIGTERM)])).map Proc.ossig = some [.SIGTERM] ∧
    (exec started (signalRun ++ [(stamp, .signal .SIGTERM)])).map Proc.run = some .live ∧
    (exec started twoSignalsRun).map Proc.run = some .blocked ∧
    (exec started twoSignalsRun).map Proc.done = some [true] ∧
    exec started (twoSignalsRun ++ [(stamp, .selectDone)]) = none ∧
    exec started (twoSignalsRun ++ [(stamp, .timer), (stamp, .selectTick answered)]) = none ∧
    (exec started (twoSignalsRun ++ [(stamp, .timer), (stamp, .signal .SIGINT)])).map
      Proc.exitCode = some none :=
  ⟨rfl, rfl, rfl, rfl, rfl, rfl, rfl, rfl⟩

end Pinger
